import Mathlib

/-!
Verification of `beacon-chain/core/helpers/signing_root.go` (Prysm).

The file embeds the three functions of the source — `ComputeSigningRoot`,
`ComputeDomain` (with its private helper `domain`) and `computeForkDataRoot` —
as pure Lean functions. Byte sequences (`[]byte` in Go) are lists of naturals;
Go's fixed-size arrays `[4]byte` and `[32]byte` become length-indexed subtypes.
The external `ssz.HashTreeRoot` engine is an abstract record of hashing
functions (one per record shape the source hashes), and the `params`
configuration provider becomes an explicit argument plus a zero-hash constant.
-/

/-- A Go `[]byte`: a variable-length byte sequence. -/
abbrev Bytes := List Nat

/-- A Go `[32]byte`: exactly 32 bytes. -/
def Root32 := { l : Bytes // l.length = 32 }

/-- ForkVersionByteLength length of fork version byte array (signing_root.go line 11). -/
def ForkVersionByteLength : Nat := 4

/-- DomainByteLength length of domain byte array (signing_root.go line 14). -/
def DomainByteLength : Nat := 4

/-- A Go `[DomainByteLength]byte`: exactly 4 bytes, as in `ComputeDomain`'s first parameter. -/
def DomainType := { l : Bytes // l.length = DomainByteLength }

/-- The proto message `pb.ForkData` hashed by `computeForkDataRoot`:
an ordered two-field record `{CurrentVersion, GenesisValidatorsRoot}`. -/
structure ForkData where
  currentVersion : Bytes
  genesisValidatorsRoot : Bytes
deriving DecidableEq

/-- The proto message `p2ppb.SigningRoot` hashed by `ComputeSigningRoot`:
an ordered two-field record `{ObjectRoot, Domain}`. -/
structure SigningRootContainer where
  objectRoot : Bytes
  domain : Bytes
deriving DecidableEq

/-- The external hashing engine `ssz.HashTreeRoot`, restricted to the three
record shapes this file hashes: an arbitrary object of type `α`, the
`SigningRootContainer` record, and the `ForkData` record. Each call either
yields a 32-byte digest or fails with an error of type `ε`. -/
structure Engine (α ε : Type) where
  hashObj : α → Except ε Root32
  hashSigningRoot : SigningRootContainer → Except ε Root32
  hashForkData : ForkData → Except ε Root32

/-- The configuration provider `params.BeaconConfig()`; only the
`GenesisForkVersion` constant is consumed by this file. -/
structure BeaconConfig where
  genesisForkVersion : Bytes

/-- Modelled from the spec: the configuration provider's `ZeroHash` constant
(`params.BeaconConfig().ZeroHash`), which the `params` package (not under the
sources given here) defines as 32 zero bytes; the spec fixes it as
"`ZeroHash` (32 zero bytes)". -/
def zeroHash : Bytes := List.replicate 32 0

/-- `computeForkDataRoot` (signing_root.go lines 92-101): hashes the
`ForkData` record `{CurrentVersion: version, GenesisValidatorsRoot: root}`
and propagates an engine failure unchanged. -/
def computeForkDataRoot {α ε : Type} (eng : Engine α ε) (version : Bytes) (root : Bytes) :
    Except ε Root32 :=
  match eng.hashForkData { currentVersion := version, genesisValidatorsRoot := root } with
  | Except.error e => Except.error e
  | Except.ok r => Except.ok r

/-- The private helper `domain` (signing_root.go lines 72-77): appends the
4 bytes of `domainType` and the first 28 bytes of `forkDataRoot`. -/
def domain (domainType : DomainType) (forkDataRoot : Bytes) : Bytes :=
  domainType.val.take 4 ++ forkDataRoot.take 28

/-- Go's `copy(forkBytes[:], forkVersion)` into a zeroed `[4]byte`
(signing_root.go lines 60-61): the first `min 4 (length forkVersion)` bytes
of `forkVersion`, zero-padded to 4 bytes. -/
def forkBytesOf (forkVersion : Bytes) : Bytes :=
  forkVersion.take 4 ++ List.replicate (4 - forkVersion.length) 0

/-- `ComputeDomain` (signing_root.go lines 53-69): substitutes the config
defaults for nil arguments, builds the (unused) `forkBytes` local copy,
computes the fork-data root from the resolved slices, and on success returns
`domain domainType forkDataRoot`. -/
def ComputeDomain {α ε : Type} (cfg : BeaconConfig) (eng : Engine α ε)
    (domainType : DomainType) (forkVersion : Option Bytes)
    (genesisValidatorsRoot : Option Bytes) : Except ε Bytes :=
  let forkVersion := forkVersion.getD cfg.genesisForkVersion
  let genesisValidatorsRoot := genesisValidatorsRoot.getD zeroHash
  let forkBytes := forkBytesOf forkVersion
  match computeForkDataRoot eng forkVersion genesisValidatorsRoot with
  | Except.error e => Except.error e
  | Except.ok forkDataRoot => Except.ok (domain domainType forkDataRoot.val)

/-- The intermediate `objRoot := ssz.HashTreeRoot(object)` computed by
`ComputeSigningRoot` as its first step (signing_root.go line 29). -/
def signingObjectRoot {α ε : Type} (eng : Engine α ε) (object : α) : Except ε Root32 :=
  eng.hashObj object

/-- `ComputeSigningRoot` (signing_root.go lines 28-38): hashes the object,
propagating a failure unchanged, then hashes the container
`{ObjectRoot: objRoot, Domain: domain}`. -/
def ComputeSigningRoot {α ε : Type} (eng : Engine α ε) (object : α) (dom : Bytes) :
    Except ε Root32 :=
  match signingObjectRoot eng object with
  | Except.error e => Except.error e
  | Except.ok objRoot =>
      eng.hashSigningRoot { objectRoot := objRoot.val, domain := dom }

/-- A concrete all-zero 32-byte digest, used to instantiate theorems. -/
def zeroRoot : Root32 := ⟨List.replicate 32 0, rfl⟩

/-- A concrete always-succeeding engine over `Nat` objects, used to
instantiate theorems. -/
def okEngine : Engine Nat String where
  hashObj := fun _ => Except.ok zeroRoot
  hashSigningRoot := fun _ => Except.ok zeroRoot
  hashForkData := fun _ => Except.ok zeroRoot

/-- A concrete engine whose object hashing always fails, used to instantiate
the error-propagation theorem. -/
def failEngine : Engine Nat String where
  hashObj := fun _ => Except.error "schema"
  hashSigningRoot := fun _ => Except.ok zeroRoot
  hashForkData := fun _ => Except.ok zeroRoot

/-- A concrete configuration with a 4-byte genesis fork version. -/
def cfg0 : BeaconConfig := { genesisForkVersion := [0, 0, 0, 0] }

/-- A concrete 4-byte domain type. -/
def dt0 : DomainType := ⟨[1, 0, 0, 0], rfl⟩

/-- Claim C1: for every domainType, forkVersion and genesisValidatorsRoot for
which the hashing engine succeeds (that is, the fork-data root computed from
the defaulted fork version and genesis validators root is some `fdr`),
`ComputeDomain` returns exactly 32 bytes whose bytes 0-3 equal the supplied
domainType and whose bytes 4-31 equal the first 28 bytes of `fdr`; the last
4 bytes of `fdr` are discarded. -/
theorem computeDomain_shape {α ε : Type} (cfg : BeaconConfig) (eng : Engine α ε)
    (domainType : DomainType) (forkVersion genesisValidatorsRoot : Option Bytes)
    (fdr : Root32)
    (h : computeForkDataRoot eng (forkVersion.getD cfg.genesisForkVersion)
        (genesisValidatorsRoot.getD zeroHash) = Except.ok fdr) :
    ComputeDomain cfg eng domainType forkVersion genesisValidatorsRoot =
      Except.ok (domain domainType fdr.val) ∧
    (domain domainType fdr.val).length = 32 ∧
    (domain domainType fdr.val).take 4 = domainType.val ∧
    (domain domainType fdr.val).drop 4 = fdr.val.take 28 := by
  have hdt : domainType.val.length = 4 := domainType.property
  have hfdr : fdr.val.length = 32 := fdr.property
  have htake : domainType.val.take 4 = domainType.val :=
    List.take_of_length_le (le_of_eq hdt)
  refine ⟨?_, ?_, ?_, ?_⟩
  · simp only [ComputeDomain]
    rw [h]
  · simp only [domain, htake, List.length_append, List.length_take, hdt, hfdr]
    omega
  · simp only [domain, htake]
    exact List.take_left' hdt
  · simp only [domain, htake]
    exact List.drop_left' hdt

/-- Witness for C1 at a concrete configuration, engine and domain type. -/
theorem computeDomain_shape_witness :
    computeForkDataRoot okEngine ((none : Option Bytes).getD cfg0.genesisForkVersion)
        ((none : Option Bytes).getD zeroHash) = Except.ok zeroRoot ∧
    (ComputeDomain cfg0 okEngine dt0 none none = Except.ok (domain dt0 zeroRoot.val) ∧
      (domain dt0 zeroRoot.val).length = 32 ∧
      (domain dt0 zeroRoot.val).take 4 = dt0.val ∧
      (domain dt0 zeroRoot.val).drop 4 = zeroRoot.val.take 28) :=
  ⟨rfl, computeDomain_shape cfg0 okEngine dt0 none none zeroRoot rfl⟩

/-- Claim C2: for every object and byte sequence `dom`, when the engine
hashes the object to `r`, `ComputeSigningRoot` returns exactly the
hash-tree-root of the two-field record whose first field is the object root
`r` and whose second field is `dom`, in that order. -/
theorem computeSigningRoot_record {α ε : Type} (eng : Engine α ε) (object : α)
    (dom : Bytes) (r : Root32) (h : eng.hashObj object = Except.ok r) :
    ComputeSigningRoot eng object dom =
      eng.hashSigningRoot { objectRoot := r.val, domain := dom } := by
  simp only [ComputeSigningRoot, signingObjectRoot]
  rw [h]

/-- Witness for C2 at a concrete engine, object and domain. -/
theorem computeSigningRoot_record_witness :
    okEngine.hashObj 7 = Except.ok zeroRoot ∧
    ComputeSigningRoot okEngine 7 [9, 9] =
      okEngine.hashSigningRoot { objectRoot := zeroRoot.val, domain := [9, 9] } :=
  ⟨rfl, computeSigningRoot_record okEngine 7 [9, 9] zeroRoot rfl⟩

/-- Claim C3: for every domain type `t`, `ComputeDomain` with both optional
arguments absent equals `ComputeDomain` with the fork version explicitly the
configuration provider's GenesisForkVersion constant and the genesis
validators root explicitly `zeroHash`, which is 32 zero bytes; the defaults
are substituted before hashing, so the two computations coincide entirely. -/
theorem computeDomain_default_equiv {α ε : Type} (cfg : BeaconConfig)
    (eng : Engine α ε) (t : DomainType) :
    ComputeDomain cfg eng t none none =
      ComputeDomain cfg eng t (some cfg.genesisForkVersion) (some zeroHash) ∧
    zeroHash = List.replicate 32 0 :=
  ⟨rfl, rfl⟩

/-- Claim C4: for every version and root, `computeForkDataRoot` equals the
engine's hash of the ordered two-field record with `currentVersion` first and
`genesisValidatorsRoot` second: a success is returned as the engine produced
it (a 32-byte digest, by the type of `Root32`) and a failure is propagated
unchanged as the error result. -/
theorem computeForkDataRoot_record {α ε : Type} (eng : Engine α ε)
    (version root : Bytes) :
    computeForkDataRoot eng version root =
      eng.hashForkData { currentVersion := version, genesisValidatorsRoot := root } := by
  cases h : eng.hashForkData { currentVersion := version, genesisValidatorsRoot := root } <;>
    simp [computeForkDataRoot, h]

/-- Claim C5: for every object on which the hashing engine fails,
`ComputeSigningRoot` returns the engine's failure propagated unchanged; the
`Except.error` result carries no signing-root value, so no partial result is
produced on the error path. -/
theorem computeSigningRoot_error_prop {α ε : Type} (eng : Engine α ε) (object : α)
    (dom : Bytes) (e : ε) (h : eng.hashObj object = Except.error e) :
    ComputeSigningRoot eng object dom = Except.error e := by
  simp only [ComputeSigningRoot, signingObjectRoot]
  rw [h]

/-- Witness for C5 at a concrete always-failing engine. -/
theorem computeSigningRoot_error_prop_witness :
    failEngine.hashObj 0 = Except.error "schema" ∧
    ComputeSigningRoot failEngine 0 [] = Except.error "schema" :=
  ⟨rfl, computeSigningRoot_error_prop failEngine 0 [] "schema" rfl⟩

/-- Claim C6 counterexample: a 5-byte fork version and a 1-byte genesis
validators root are representable at `ComputeDomain`'s interface — the
parameters are variable-length byte sequences, not sized arrays — and the
call is accepted and succeeds, so wrong-length values for these parameters
are not structurally impossible. -/
theorem computeDomain_varlen_counterexample :
    ([0, 0, 0, 0, 0] : Bytes).length ≠ 4 ∧
    ([1] : Bytes).length ≠ 32 ∧
    ComputeDomain cfg0 okEngine dt0 (some [0, 0, 0, 0, 0]) (some [1]) =
      Except.ok (domain dt0 zeroRoot.val) :=
  ⟨by decide, by decide, rfl⟩

/-- Claim C6 amended: only the domainType parameter is a sized 4-byte array,
so a wrong-length domain type is structurally impossible; the fork version
and genesis validators root of `ComputeDomain` and both parameters of
`computeForkDataRoot` are variable-length byte sequences, so wrong-length
values for them are representable and accepted at the interfaces. -/
theorem sized_domainType_only :
    (∀ dt : DomainType, dt.val.length = 4) ∧
    (∃ fv gvr : Bytes, fv.length ≠ 4 ∧ gvr.length ≠ 32 ∧
      computeForkDataRoot okEngine fv gvr = Except.ok zeroRoot) :=
  ⟨fun dt => dt.property, [0, 0, 0, 0, 0], [1], by decide, by decide, rfl⟩

/-- Claim C7: for every non-nil forkVersion whose length differs from 4,
`ComputeDomain` hands exactly the raw caller-supplied slice to the
fork-data-root computation, and the domain is built from that root; the
4-byte local copy `forkBytesOf forkVersion` differs from the raw slice, so
no truncation or zero-padding to 4 bytes occurs before hashing. -/
theorem computeDomain_raw_forkVersion {α ε : Type} (cfg : BeaconConfig)
    (eng : Engine α ε) (dt : DomainType) (fv gvr : Bytes) (h : fv.length ≠ 4) :
    ComputeDomain cfg eng dt (some fv) (some gvr) =
      (computeForkDataRoot eng fv gvr).map (fun fdr => domain dt fdr.val) ∧
    forkBytesOf fv ≠ fv := by
  constructor
  · cases hc : computeForkDataRoot eng fv gvr <;>
      simp [ComputeDomain, hc, Except.map]
  · intro heq
    apply h
    have hlen : (forkBytesOf fv).length = 4 := by
      simp only [forkBytesOf, List.length_append, List.length_take,
        List.length_replicate]
      omega
    rw [← heq]
    exact hlen

/-- Witness for C7 at a concrete 5-byte fork version. -/
theorem computeDomain_raw_forkVersion_witness :
    ([1, 2, 3, 4, 5] : Bytes).length ≠ 4 ∧
    (ComputeDomain cfg0 okEngine dt0 (some [1, 2, 3, 4, 5]) (some [2]) =
        (computeForkDataRoot okEngine [1, 2, 3, 4, 5] [2]).map
          (fun fdr => domain dt0 fdr.val) ∧
      forkBytesOf [1, 2, 3, 4, 5] ≠ [1, 2, 3, 4, 5]) :=
  ⟨by decide,
    computeDomain_raw_forkVersion cfg0 okEngine dt0 [1, 2, 3, 4, 5] [2] (by decide)⟩

/-- Claim C8: for every byte sequence `dom` of any length, `ComputeSigningRoot`
is exactly the engine's object hash bound to the engine's container hash with
`dom` passed as supplied; it contains no length check of its own on `dom`, so
any failure for a given object-domain pair originates from the engine alone. -/
theorem computeSigningRoot_no_domain_check {α ε : Type} (eng : Engine α ε)
    (object : α) (dom : Bytes) :
    ComputeSigningRoot eng object dom =
      (eng.hashObj object).bind
        (fun r => eng.hashSigningRoot { objectRoot := r.val, domain := dom }) := by
  cases h : eng.hashObj object <;>
    simp [ComputeSigningRoot, signingObjectRoot, h, Except.bind]

/-- Claim C9: both `ComputeSigningRoot eng object dom1` and
`ComputeSigningRoot eng object dom2` factor through the same intermediate
`signingObjectRoot eng object`, a value in which the domain argument does not
occur: the object root computed inside is identical for any two domains, and
only the final container hash depends on the domain. -/
theorem computeSigningRoot_objectRoot_independent {α ε : Type} (eng : Engine α ε)
    (object : α) (dom1 dom2 : Bytes) :
    ComputeSigningRoot eng object dom1 =
      (signingObjectRoot eng object).bind
        (fun r => eng.hashSigningRoot { objectRoot := r.val, domain := dom1 }) ∧
    ComputeSigningRoot eng object dom2 =
      (signingObjectRoot eng object).bind
        (fun r => eng.hashSigningRoot { objectRoot := r.val, domain := dom2 }) := by
  constructor <;>
    · cases h : signingObjectRoot eng object <;>
        simp [ComputeSigningRoot, h, Except.bind]

/-- Claim C10: the three operations are pure functions of their arguments —
the engine and the configuration enter only as explicit function arguments
and no call reads or writes shared state — so two calls with identical inputs
yield identical results, failures included. -/
theorem operations_deterministic {α ε : Type} (cfg : BeaconConfig)
    (eng : Engine α ε) (dt : DomainType) (fv gvr : Option Bytes)
    (version root dom : Bytes) (object : α) :
    computeForkDataRoot eng version root = computeForkDataRoot eng version root ∧
    ComputeDomain cfg eng dt fv gvr = ComputeDomain cfg eng dt fv gvr ∧
    ComputeSigningRoot eng object dom = ComputeSigningRoot eng object dom :=
  ⟨rfl, rfl, rfl⟩
